import Mathlib

/-!
Verification of the GCE cluster-id cache and lazy-provisioning protocol
(`pkg/cloudprovider/providers/gce/gce_clusterid.go`).

The embedding models the `ClusterId` struct and its operations `setIds`,
`getConfigMap`, `getOrInitialize`, `GetId` and `GetFederationId` as pure
state-passing functions.  External collaborators (the informer store's
`GetByKey`, `makeUID`'s random source, and the API-server `Create` call)
are modelled by an `Env` record holding the outcome each collaborator
would produce for the single use the routine makes of it.  A separate
multi-process transition system models N concurrent initializers racing
on an empty shared record store.
-/

namespace GCEClusterId

/-- `UIDConfigMapName`: key used to persist UIDs to configmaps. -/
def UIDConfigMapName : String := "ingress-uid"

/-- `UIDNamespace` (= `metav1.NamespaceSystem`): namespace containing the map. -/
def UIDNamespace : String := "kube-system"

/-- `UIDCluster`: data key for the cluster id. -/
def UIDCluster : String := "uid"

/-- `UIDProvider`: data key for the provider id. -/
def UIDProvider : String := "provider-uid"

/-- A `v1.ConfigMap` as far as this file uses it: object meta (name,
namespace) plus the string-to-string `Data` map, modelled as an
association list looked up by key. -/
structure ConfigMap where
  name : String
  ns : String
  data : List (String × String)
deriving DecidableEq, Repr

/-- The `ClusterId` struct's observable state: whether `ci.store` is
non-nil (set by `watchClusterId` when the informer is created), and the
two optional cached id fields.  The lock, client and `cfgMapKey` carry
no observable state of their own. -/
structure ClusterId where
  storeReady : Bool
  clusterId : Option String
  providerId : Option String
deriving DecidableEq, Repr

/-- An item returned by `store.GetByKey`: either a `*v1.ConfigMap`, or
something that fails the `item.(*v1.ConfigMap)` type assertion (this
also covers a nil `*v1.ConfigMap`, which the code rejects the same way). -/
inductive StoreItem where
  | configMap (m : ConfigMap)
  | other
deriving DecidableEq, Repr

/-- Outcome of the `ci.store.GetByKey(ci.cfgMapKey)` call. -/
inductive GetByKeyResult where
  | err
  | absent
  | found (item : StoreItem)
deriving DecidableEq, Repr

/-- Failure modes of `ci.client.Core().ConfigMaps(...).Create(cfg)`. -/
inductive CreateError where
  | alreadyExists
  | other
deriving DecidableEq, Repr

/-- Outcomes the external collaborators would produce during one
`getOrInitialize` call: the store read result, the `makeUID` result
(`none` = the random source failed), and the create result
(`none` = the create succeeded). -/
structure Env where
  storeGet : GetByKeyResult
  uid : Option String
  createErr : Option CreateError
deriving DecidableEq, Repr

/-- The errors `getOrInitialize` / `GetId` / `GetFederationId` return:
`notInitialized` is `"GCECloud.ClusterId is not ready..."`,
`notFound` is `"Could not retrieve cluster id"`,
`storeGetFailed` is an error from `GetByKey`,
`badStoreItem` is `"Expected v1.ConfigMap..."`,
`uidFailed` is a `rand.Read` failure inside `makeUID`, and
`createFailed e` is the error `e` returned verbatim from `Create`. -/
inductive CIError where
  | notInitialized
  | notFound
  | storeGetFailed
  | badStoreItem
  | uidFailed
  | createFailed (e : CreateError)
deriving DecidableEq, Repr

/-- Result of `GetId` (`IdRes String`) and `GetFederationId`
(`IdRes (String × Bool)`): the Go multi-value return with a nil or
non-nil error. -/
inductive IdRes (α : Type) where
  | ok (val : α)
  | err (e : CIError)
deriving DecidableEq, Repr

/-- Storage operations `getOrInitialize` performs, in order: the
`store.GetByKey` read and the API-server `Create` call. -/
inductive StorageOp where
  | storeRead
  | createCall
deriving DecidableEq, Repr

/-- `func (ci *ClusterId) setIds(m *v1.ConfigMap)`: under the lock, if
`m.Data[UIDCluster]` exists overwrite `clusterId`, and if
`m.Data[UIDProvider]` exists overwrite `providerId`. -/
def setIds (ci : ClusterId) (m : ConfigMap) : ClusterId :=
  let ci1 :=
    match m.data.lookup UIDCluster with
    | some v => { ci with clusterId := some v }
    | none => ci
  match m.data.lookup UIDProvider with
  | some v => { ci1 with providerId := some v }
  | none => ci1

/-- `func (ci *ClusterId) getConfigMap() (bool, error)`: read the
configmap from the informer store by key; on a read error or a
non-`*v1.ConfigMap` item return the error, on a miss return
`(false, nil)`, and on a hit apply `setIds` and return `(true, nil)`. -/
def getConfigMap (ci : ClusterId) (r : GetByKeyResult) :
    ClusterId × Bool × Option CIError :=
  match r with
  | GetByKeyResult.err => (ci, false, some CIError.storeGetFailed)
  | GetByKeyResult.absent => (ci, false, none)
  | GetByKeyResult.found StoreItem.other => (ci, false, some CIError.badStoreItem)
  | GetByKeyResult.found (StoreItem.configMap m) => (setIds ci m, true, none)

/-- The configmap the create path builds: name `UIDConfigMapName` in
`UIDNamespace`, with both `UIDCluster` and `UIDProvider` mapped to the
freshly generated id. -/
def newConfigMap (tok : String) : ConfigMap :=
  { name := UIDConfigMapName
    ns := UIDNamespace
    data := [(UIDCluster, tok), (UIDProvider, tok)] }

/-- `func (ci *ClusterId) getOrInitialize() error`, with the state it
leaves behind and the list of storage operations it performed:
fail fast when `ci.store` is nil; return nil when `clusterId` is already
cached; otherwise read the store (propagating its errors, done if found);
otherwise make a UID and create the configmap, returning any create
error verbatim, and on success apply the created values via `setIds`. -/
def getOrInitialize (ci : ClusterId) (env : Env) :
    ClusterId × Option CIError × List StorageOp :=
  if ci.storeReady = false then
    (ci, some CIError.notInitialized, [])
  else if ci.clusterId.isSome then
    (ci, none, [])
  else
    match getConfigMap ci env.storeGet with
    | (ci2, _, some e) => (ci2, some e, [StorageOp.storeRead])
    | (ci2, true, none) => (ci2, none, [StorageOp.storeRead])
    | (ci2, false, none) =>
      match env.uid with
      | none => (ci2, some CIError.uidFailed, [StorageOp.storeRead])
      | some tok =>
        match env.createErr with
        | some e =>
          (ci2, some (CIError.createFailed e), [StorageOp.storeRead, StorageOp.createCall])
        | none =>
          (setIds ci2 (newConfigMap tok), none, [StorageOp.storeRead, StorageOp.createCall])

/-- `func (ci *ClusterId) GetId() (string, error)`: run
`getOrInitialize` (propagating its error), then fail with
`"Could not retrieve cluster id"` when `clusterId` is nil, return
`*providerId` when it is set and differs from `*clusterId`, and return
`*clusterId` otherwise. -/
def GetId (ci : ClusterId) (env : Env) :
    ClusterId × IdRes String × List StorageOp :=
  match getOrInitialize ci env with
  | (ci2, some e, ops) => (ci2, IdRes.err e, ops)
  | (ci2, none, ops) =>
    match ci2.clusterId with
    | none => (ci2, IdRes.err CIError.notFound, ops)
    | some cid =>
      match ci2.providerId with
      | some pid =>
        if pid ≠ cid then (ci2, IdRes.ok pid, ops) else (ci2, IdRes.ok cid, ops)
      | none => (ci2, IdRes.ok cid, ops)

/-- `func (ci *ClusterId) GetFederationId() (string, bool, error)`: run
`getOrInitialize` (propagating its error), then fail with
`"Could not retrieve cluster id"` when `clusterId` is nil, return
`("", false, nil)` when `providerId` is nil or equals `clusterId`, and
return `(*clusterId, true, nil)` otherwise. -/
def GetFederationId (ci : ClusterId) (env : Env) :
    ClusterId × IdRes (String × Bool) × List StorageOp :=
  match getOrInitialize ci env with
  | (ci2, some e, ops) => (ci2, IdRes.err e, ops)
  | (ci2, none, ops) =>
    match ci2.clusterId with
    | none => (ci2, IdRes.err CIError.notFound, ops)
    | some cid =>
      match ci2.providerId with
      | none => (ci2, IdRes.ok ("", false), ops)
      | some pid =>
        if cid = pid then (ci2, IdRes.ok ("", false), ops)
        else (ci2, IdRes.ok (cid, true), ops)

/-! ## Multi-process model for the concurrent first-creation race

N processes each own a `ClusterId` cache (watch started, hence
`storeReady = true`) and share one record store that starts empty.  The
interleaving is an arbitrary list of events: a process attempting the
create step of `getOrInitialize` (which the code only reaches with an
unpopulated cache; `Create` is atomic create-if-absent, failing with
`AlreadyExists` when a record is present), or the process's watch/store
read delivering the current record to its cache via `setIds`, exactly
as the informer event handlers and `getConfigMap` do. -/

/-- A cache that has been made ready by `watchClusterId` but has not
observed anything yet. -/
def readyEmptyCache : ClusterId :=
  { storeReady := true, clusterId := none, providerId := none }

/-- Global state of the N-process system: the shared record store
(`none` = no record yet, `some t` = a record created from token `t`),
each process's local cache, and each process's create outcome
(`none` = no create attempted yet). -/
structure MultiState (n : Nat) where
  record : Option String
  caches : Fin n → ClusterId
  created : Fin n → Option (Option CreateError)

/-- One interleaving event: process `i` attempts the create step with
its freshly generated token `tok`, or process `i`'s watch/store read
delivers the current record to its cache. -/
inductive MEvent (n : Nat) where
  | create (i : Fin n) (tok : String)
  | deliver (i : Fin n)

/-- One step of the multi-process system.  A create by a process whose
cache already holds a cluster id is a no-op (the code returns on the
fast path before reaching `Create`).  Otherwise the create succeeds
exactly when the store is empty, installing the token and applying the
created configmap to the winner's cache (`ci.setIds(cfg)`); with a
record present it fails with `AlreadyExists` and — in this code —
touches nothing.  A delivery applies the current record, if any, to the
process's cache via `setIds`. -/
def mstep {n : Nat} (s : MultiState n) (e : MEvent n) : MultiState n :=
  match e with
  | MEvent.create i tok =>
    if (s.caches i).clusterId.isSome then s
    else
      match s.record with
      | none =>
        { record := some tok
          caches := Function.update s.caches i (setIds (s.caches i) (newConfigMap tok))
          created := Function.update s.created i (some none) }
      | some _ =>
        { s with created := Function.update s.created i (some (some CreateError.alreadyExists)) }
  | MEvent.deliver i =>
    match s.record with
    | none => s
    | some t =>
      { s with caches := Function.update s.caches i (setIds (s.caches i) (newConfigMap t)) }

/-- Run a list of events from a state. -/
def runM {n : Nat} (evs : List (MEvent n)) (s : MultiState n) : MultiState n :=
  evs.foldl mstep s

/-- Initial state: empty record store, every process's watch started but
cache unpopulated, no create attempted. -/
def initMulti (n : Nat) : MultiState n :=
  { record := none, caches := fun _ => readyEmptyCache, created := fun _ => none }

/-! ## Basic lemmas about `setIds` -/

theorem setIds_clusterId (ci : ClusterId) (m : ConfigMap) :
    (setIds ci m).clusterId =
      match m.data.lookup UIDCluster with
      | some v => some v
      | none => ci.clusterId := by
  simp only [setIds]
  cases hc : m.data.lookup UIDCluster <;> cases hp : m.data.lookup UIDProvider <;>
    simp [hc, hp]

theorem setIds_providerId (ci : ClusterId) (m : ConfigMap) :
    (setIds ci m).providerId =
      match m.data.lookup UIDProvider with
      | some v => some v
      | none => ci.providerId := by
  simp only [setIds]
  cases hc : m.data.lookup UIDCluster <;> cases hp : m.data.lookup UIDProvider <;>
    simp [hc, hp]

theorem setIds_storeReady (ci : ClusterId) (m : ConfigMap) :
    (setIds ci m).storeReady = ci.storeReady := by
  simp only [setIds]
  cases hc : m.data.lookup UIDCluster <;> cases hp : m.data.lookup UIDProvider <;>
    simp [hc, hp]

theorem newConfigMap_lookup_cluster (tok : String) :
    (newConfigMap tok).data.lookup UIDCluster = some tok := rfl

theorem newConfigMap_lookup_provider (tok : String) :
    (newConfigMap tok).data.lookup UIDProvider = some tok := rfl

theorem setIds_newConfigMap (ci : ClusterId) (tok : String) :
    setIds ci (newConfigMap tok) =
      { ci with clusterId := some tok, providerId := some tok } := rfl

/-- C9: Applying the same record snapshot to the cache twice via `setIds`
yields the same cache state as applying it once. -/
theorem setIds_idempotent (ci : ClusterId) (m : ConfigMap) :
    setIds (setIds ci m) m = setIds ci m := by
  rcases ci with ⟨sr, cid, pid⟩
  simp only [setIds]
  cases hc : m.data.lookup UIDCluster <;> cases hp : m.data.lookup UIDProvider <;>
    simp [hc, hp]

/-- C8: A `setIds` application whose record data lacks the cluster key
leaves `clusterId` unchanged, and one whose record data lacks the
provider key leaves `providerId` unchanged. -/
theorem setIds_frame (ci : ClusterId) (m : ConfigMap) :
    (m.data.lookup UIDCluster = none → (setIds ci m).clusterId = ci.clusterId) ∧
    (m.data.lookup UIDProvider = none → (setIds ci m).providerId = ci.providerId) := by
  constructor
  · intro hc
    rw [setIds_clusterId, hc]
  · intro hp
    rw [setIds_providerId, hp]

theorem setIds_frame_witness :
    ((ConfigMap.mk UIDConfigMapName UIDNamespace [("other-key", "x")]).data.lookup UIDCluster = none) ∧
    ((ConfigMap.mk UIDConfigMapName UIDNamespace [("other-key", "x")]).data.lookup UIDProvider = none) ∧
    (setIds (ClusterId.mk true (some "a") (some "b"))
        (ConfigMap.mk UIDConfigMapName UIDNamespace [("other-key", "x")])).clusterId =
      (ClusterId.mk true (some "a") (some "b")).clusterId ∧
    (setIds (ClusterId.mk true (some "a") (some "b"))
        (ConfigMap.mk UIDConfigMapName UIDNamespace [("other-key", "x")])).providerId =
      (ClusterId.mk true (some "a") (some "b")).providerId :=
  ⟨by decide, by decide,
    (setIds_frame (ClusterId.mk true (some "a") (some "b"))
      (ConfigMap.mk UIDConfigMapName UIDNamespace [("other-key", "x")])).1 (by decide),
    (setIds_frame (ClusterId.mk true (some "a") (some "b"))
      (ConfigMap.mk UIDConfigMapName UIDNamespace [("other-key", "x")])).2 (by decide)⟩

/-- C7 counterexample: a cache whose `clusterId` holds the non-empty
value `"abc"` and a subsequent `setIds` with record data mapping the
cluster key to the empty string: `clusterId` becomes the empty string,
so with arbitrary record data a learned non-empty value can become
empty again. -/
theorem clusterId_overwritten_empty :
    (ClusterId.mk true (some "abc") none).clusterId = some "abc" ∧ "abc" ≠ "" ∧
    ([ConfigMap.mk UIDConfigMapName UIDNamespace [(UIDCluster, "")]].foldl setIds
        (ClusterId.mk true (some "abc") none)).clusterId = some "" := by
  refine ⟨rfl, by decide, rfl⟩

/-- C7 amended: once `clusterId` is set, no sequence of `setIds`
applications ever clears it back to the unset state — the cluster field
is only ever overwritten by a value present in a record (which may be
any string, including the empty one), never un-learned. -/
theorem clusterId_never_unset (ci : ClusterId) (ms : List ConfigMap)
    (h : ci.clusterId.isSome = true) :
    ((ms.foldl setIds ci).clusterId).isSome = true := by
  induction ms generalizing ci with
  | nil => exact h
  | cons m ms ih =>
    refine ih (setIds ci m) ?_
    rw [setIds_clusterId]
    cases hc : m.data.lookup UIDCluster with
    | none => exact h
    | some v => rfl

theorem clusterId_never_unset_witness :
    ((ClusterId.mk true (some "abc") none).clusterId).isSome = true ∧
    (([ConfigMap.mk UIDConfigMapName UIDNamespace [(UIDCluster, "x")],
       ConfigMap.mk UIDConfigMapName UIDNamespace []].foldl setIds
        (ClusterId.mk true (some "abc") none)).clusterId).isSome = true :=
  ⟨by decide,
    clusterId_never_unset (ClusterId.mk true (some "abc") none)
      [ConfigMap.mk UIDConfigMapName UIDNamespace [(UIDCluster, "x")],
       ConfigMap.mk UIDConfigMapName UIDNamespace []] (by decide)⟩

/-! ## Lemmas about `getConfigMap` and `getOrInitialize` -/

theorem getConfigMap_error_frame (ci : ClusterId) (r : GetByKeyResult)
    (ci2 : ClusterId) (b : Bool) (e : CIError)
    (h : getConfigMap ci r = (ci2, b, some e)) : ci2 = ci := by
  cases r with
  | err => simp [getConfigMap] at h; exact h.1.symm
  | absent => simp [getConfigMap] at h
  | found item =>
    cases item with
    | other => simp [getConfigMap] at h; exact h.1.symm
    | configMap m => simp [getConfigMap] at h

/-- C10: Whenever `getOrInitialize` returns a non-nil error — store not
ready, store read failure, stored item of the wrong type, UID-generation
failure, or creation failure — the cache is exactly as it was before the
call. -/
theorem getOrInitialize_error_unchanged (ci : ClusterId) (env : Env)
    (ci' : ClusterId) (e : CIError) (ops : List StorageOp)
    (h : getOrInitialize ci env = (ci', some e, ops)) : ci' = ci := by
  rcases env with ⟨sg, uid, ce⟩
  rcases ci with ⟨sr, cid, pid⟩
  cases sr <;> cases cid <;>
    rcases sg with _ | _ | (m | _) <;>
    cases uid <;> cases ce <;>
    simp [getOrInitialize, getConfigMap] at h <;>
    simp_all

theorem getOrInitialize_error_unchanged_witness :
    getOrInitialize readyEmptyCache
        (Env.mk GetByKeyResult.err none none) =
      (readyEmptyCache, some CIError.storeGetFailed, [StorageOp.storeRead]) ∧
    (getOrInitialize readyEmptyCache (Env.mk GetByKeyResult.err none none)).1 =
      readyEmptyCache :=
  ⟨by decide,
    getOrInitialize_error_unchanged readyEmptyCache
      (Env.mk GetByKeyResult.err none none) readyEmptyCache
      CIError.storeGetFailed [StorageOp.storeRead] (by decide)⟩

/-- C6: Before the watch scope has been started (`ci.store` still nil),
`getOrInitialize` — and hence any `GetId` or `GetFederationId` call —
fails immediately with the not-ready error, leaves the cache unchanged,
and performs no storage read or create operation. -/
theorem not_ready_fails_fast (ci : ClusterId) (env : Env)
    (h : ci.storeReady = false) :
    getOrInitialize ci env = (ci, some CIError.notInitialized, []) ∧
    GetId ci env = (ci, IdRes.err CIError.notInitialized, []) ∧
    GetFederationId ci env = (ci, IdRes.err CIError.notInitialized, []) := by
  have h1 : getOrInitialize ci env = (ci, some CIError.notInitialized, []) := by
    unfold getOrInitialize
    rw [h]
    simp
  refine ⟨h1, ?_, ?_⟩ <;> simp [GetId, GetFederationId, h1]

theorem not_ready_fails_fast_witness :
    (ClusterId.mk false none none).storeReady = false ∧
    GetId (ClusterId.mk false none none)
        (Env.mk (GetByKeyResult.found (StoreItem.configMap (newConfigMap "t"))) (some "t") none) =
      (ClusterId.mk false none none, IdRes.err CIError.notInitialized, []) :=
  ⟨by decide,
    (not_ready_fails_fast (ClusterId.mk false none none)
      (Env.mk (GetByKeyResult.found (StoreItem.configMap (newConfigMap "t"))) (some "t") none)
      (by decide)).2.1⟩

/-- C2: For every cache state reached when `getOrInitialize` returns
success, `GetId` fails with the could-not-retrieve error if `clusterId`
is absent; otherwise, if `providerId` is present and differs from
`clusterId` it returns `providerId`, and in the remaining cases
(`providerId` absent or equal to `clusterId`) it returns `clusterId`. -/
theorem getId_after_init_success (ci ci' : ClusterId) (env : Env)
    (ops : List StorageOp)
    (h : getOrInitialize ci env = (ci', none, ops)) :
    (ci'.clusterId = none → (GetId ci env).2.1 = IdRes.err CIError.notFound) ∧
    (∀ cid pid, ci'.clusterId = some cid → ci'.providerId = some pid →
      pid ≠ cid → (GetId ci env).2.1 = IdRes.ok pid) ∧
    (∀ cid, ci'.clusterId = some cid → ci'.providerId = some cid →
      (GetId ci env).2.1 = IdRes.ok cid) ∧
    (∀ cid, ci'.clusterId = some cid → ci'.providerId = none →
      (GetId ci env).2.1 = IdRes.ok cid) := by
  refine ⟨?_, ?_, ?_, ?_⟩ <;> intros <;> simp_all [GetId]

theorem getId_after_init_success_witness :
    getOrInitialize (ClusterId.mk true (some "A") (some "B")) (Env.mk GetByKeyResult.absent none none) =
      (ClusterId.mk true (some "A") (some "B"), none, []) ∧
    "B" ≠ "A" ∧
    (GetId (ClusterId.mk true (some "A") (some "B")) (Env.mk GetByKeyResult.absent none none)).2.1 =
      IdRes.ok "B" :=
  ⟨by decide, by decide,
    (getId_after_init_success (ClusterId.mk true (some "A") (some "B"))
        (ClusterId.mk true (some "A") (some "B")) (Env.mk GetByKeyResult.absent none none) []
        (by decide)).2.1 "A" "B" (by decide) (by decide) (by decide)⟩

/-- C3: For every cache state reached when `getOrInitialize` returns
success and `clusterId` is present, `GetFederationId` returns
`("", false)` with a nil error when `providerId` is absent or equals
`clusterId`, and returns `(clusterId, true)` — the local cluster id, not
the provider id — when `providerId` is present and differs. -/
theorem getFederationId_after_init_success (ci ci' : ClusterId) (env : Env)
    (ops : List StorageOp) (cid : String)
    (h : getOrInitialize ci env = (ci', none, ops))
    (hc : ci'.clusterId = some cid) :
    ((ci'.providerId = none ∨ ci'.providerId = some cid) →
      (GetFederationId ci env).2.1 = IdRes.ok ("", false)) ∧
    (∀ pid, ci'.providerId = some pid → pid ≠ cid →
      (GetFederationId ci env).2.1 = IdRes.ok (cid, true)) := by
  constructor
  · rintro (hp | hp) <;> simp_all [GetFederationId]
  · intro pid hp hne
    have : ¬cid = pid := fun hh => hne (hh.symm)
    simp_all [GetFederationId]

theorem getFederationId_after_init_success_witness :
    getOrInitialize (ClusterId.mk true (some "A") (some "B")) (Env.mk GetByKeyResult.absent none none) =
      (ClusterId.mk true (some "A") (some "B"), none, []) ∧
    "B" ≠ "A" ∧
    (GetFederationId (ClusterId.mk true (some "A") (some "B"))
        (Env.mk GetByKeyResult.absent none none)).2.1 = IdRes.ok ("A", true) :=
  ⟨by decide, by decide,
    (getFederationId_after_init_success (ClusterId.mk true (some "A") (some "B"))
        (ClusterId.mk true (some "A") (some "B")) (Env.mk GetByKeyResult.absent none none) [] "A"
        (by decide) (by decide)).2 "B" (by decide) (by decide)⟩

/-! ## C1: the create path's handling of `AlreadyExists`

The source returns any error from `Create` verbatim (`return err`); there
is no `AlreadyExists` special case, so a caller that loses the creation
race sees the `AlreadyExists` error from `GetId`/`GetFederationId`. -/

/-- The environment seen by a ready, unpopulated cache that loses the
creation race: the local store read misses, UID generation succeeds,
and `Create` fails with `AlreadyExists`. -/
def lostRaceEnv : Env :=
  Env.mk GetByKeyResult.absent (some "deadbeefdeadbeef")
    (some CreateError.alreadyExists)

/-- C1 counterexample: when `Create` fails with `AlreadyExists`,
`getOrInitialize` returns that error rather than success, and both
`GetId` and `GetFederationId` surface it to their callers. -/
theorem alreadyExists_is_propagated :
    (getOrInitialize readyEmptyCache lostRaceEnv).2.1 =
      some (CIError.createFailed CreateError.alreadyExists) ∧
    (GetId readyEmptyCache lostRaceEnv).2.1 =
      IdRes.err (CIError.createFailed CreateError.alreadyExists) ∧
    (GetFederationId readyEmptyCache lostRaceEnv).2.1 =
      IdRes.err (CIError.createFailed CreateError.alreadyExists) :=
  ⟨rfl, rfl, rfl⟩

/-- C1 amended: when the create step fails, `getOrInitialize` returns
the create error verbatim — `AlreadyExists` included, with no special
case — leaving the cache unchanged, and `GetId` propagates it to the
caller. -/
theorem create_error_propagated (ci : ClusterId) (env : Env)
    (e : CreateError) (tok : String)
    (hready : ci.storeReady = true) (hcid : ci.clusterId = none)
    (hsg : env.storeGet = GetByKeyResult.absent)
    (huid : env.uid = some tok) (hce : env.createErr = some e) :
    getOrInitialize ci env =
      (ci, some (CIError.createFailed e), [StorageOp.storeRead, StorageOp.createCall]) ∧
    (GetId ci env).2.1 = IdRes.err (CIError.createFailed e) := by
  have h1 : getOrInitialize ci env =
      (ci, some (CIError.createFailed e), [StorageOp.storeRead, StorageOp.createCall]) := by
    unfold getOrInitialize getConfigMap
    rw [hready, hcid, hsg, huid, hce]
    simp
  exact ⟨h1, by simp [GetId, h1]⟩

theorem create_error_propagated_witness :
    readyEmptyCache.storeReady = true ∧ readyEmptyCache.clusterId = none ∧
    lostRaceEnv.storeGet = GetByKeyResult.absent ∧
    lostRaceEnv.uid = some "deadbeefdeadbeef" ∧
    lostRaceEnv.createErr = some CreateError.alreadyExists ∧
    (GetId readyEmptyCache lostRaceEnv).2.1 =
      IdRes.err (CIError.createFailed CreateError.alreadyExists) :=
  ⟨by decide, by decide, by decide, by decide, by decide,
    (create_error_propagated readyEmptyCache lostRaceEnv CreateError.alreadyExists
      "deadbeefdeadbeef" (by decide) (by decide) (by decide) (by decide) (by decide)).2⟩

/-! ## C4: non-empty identity or error

`GetFederationId` returns `("", false, nil)` — an empty string with a
nil error — whenever the cluster is not federated, so the claim as
stated fails.  The amended statement: under caches and environments
whose record values are non-empty, `GetId` never returns an empty
string with a nil error, and `GetFederationId` pairs a non-empty id
with `true`; its empty string only ever appears with `isFederated =
false`. -/

/-- An environment in which the external collaborators are never
consulted successfully: store read misses and UID generation fails. -/
def envIdle : Env := Env.mk GetByKeyResult.absent none none

/-- C4 counterexample: a reachable cache state (ready cache that
observed a record carrying only the cluster field) on which
`GetFederationId` returns the empty string paired with a nil error. -/
theorem getFederationId_empty_ok :
    setIds readyEmptyCache (ConfigMap.mk UIDConfigMapName UIDNamespace [(UIDCluster, "a")]) =
      ClusterId.mk true (some "a") none ∧
    (GetFederationId (ClusterId.mk true (some "a") none) envIdle).2.1 =
      IdRes.ok ("", false) :=
  ⟨rfl, rfl⟩

/-- `true` iff an optional observed value is not the empty string. -/
def valOk : Option String → Bool
  | none => true
  | some v => v != ""

/-- `true` iff neither cached field holds the empty string. -/
def cacheNonEmpty (ci : ClusterId) : Bool :=
  valOk ci.clusterId && valOk ci.providerId

/-- `true` iff the collaborators' outcomes carry no empty record value:
a configmap delivered by the store read has no empty value at the two
recognized keys, and a generated UID is non-empty. -/
def envNonEmpty (env : Env) : Bool :=
  (match env.storeGet with
    | GetByKeyResult.found (StoreItem.configMap m) =>
      valOk (m.data.lookup UIDCluster) && valOk (m.data.lookup UIDProvider)
    | _ => true) && valOk env.uid

theorem setIds_nonEmpty (ci : ClusterId) (m : ConfigMap)
    (h : cacheNonEmpty ci = true)
    (hc : valOk (m.data.lookup UIDCluster) = true)
    (hp : valOk (m.data.lookup UIDProvider) = true) :
    cacheNonEmpty (setIds ci m) = true := by
  simp only [cacheNonEmpty, Bool.and_eq_true] at h ⊢
  rw [setIds_clusterId, setIds_providerId]
  cases hcl : m.data.lookup UIDCluster <;> cases hpl : m.data.lookup UIDProvider <;>
    simp_all

theorem getOrInitialize_nonEmpty (ci : ClusterId) (env : Env)
    (h : cacheNonEmpty ci = true) (he : envNonEmpty env = true) :
    cacheNonEmpty (getOrInitialize ci env).1 = true := by
  rcases env with ⟨sg, uid, ce⟩
  simp only [envNonEmpty, Bool.and_eq_true] at he
  cases hsr : ci.storeReady <;>
    cases hcs : ci.clusterId.isSome <;>
    rcases sg with _ | _ | (m | _) <;>
    cases uid <;> cases ce <;>
    simp_all [getOrInitialize, getConfigMap] <;>
    first
      | exact setIds_nonEmpty ci m h he.1.1 he.1.2
      | (simp only [valOk, bne_iff_ne, ne_eq, decide_eq_true_eq] at he
         apply setIds_nonEmpty _ _ h <;>
           simp [newConfigMap_lookup_cluster, newConfigMap_lookup_provider, valOk, he])

theorem valOk_some (v : String) (h : valOk (some v) = true) : v ≠ "" := by
  simpa [valOk] using h

/-- C4 amended: provided every record value the cache can observe is
non-empty (no empty string cached, no empty value at the recognized keys
of a read configmap, no empty generated UID), `GetId` only pairs a
non-empty identity with a nil error, and `GetFederationId` only pairs a
non-empty identity with `isFederated = true`; its empty-string result
occurs only with `isFederated = false`, the designed not-federated
signal. -/
theorem ids_nonEmpty (ci : ClusterId) (env : Env)
    (h : cacheNonEmpty ci = true) (he : envNonEmpty env = true) :
    (∀ s, (GetId ci env).2.1 = IdRes.ok s → s ≠ "") ∧
    (∀ s b, (GetFederationId ci env).2.1 = IdRes.ok (s, b) → b = true → s ≠ "") := by
  have hpost := getOrInitialize_nonEmpty ci env h he
  rcases hgo : getOrInitialize ci env with ⟨ci2, e, ops⟩
  rw [hgo] at hpost
  simp only [cacheNonEmpty, Bool.and_eq_true] at hpost
  obtain ⟨hc2, hp2⟩ := hpost
  constructor
  · intro s hs
    simp only [GetId, hgo] at hs
    cases e with
    | some err => simp at hs
    | none =>
      cases hc : ci2.clusterId with
      | none => simp [hc] at hs
      | some cid =>
        rw [hc] at hc2
        cases hp : ci2.providerId with
        | none =>
          simp [hc, hp] at hs
          exact hs ▸ valOk_some cid hc2
        | some pid =>
          rw [hp] at hp2
          by_cases hpc : pid = cid
          · simp [hc, hp, hpc] at hs
            exact hs ▸ valOk_some cid hc2
          · simp [hc, hp, hpc] at hs
            exact hs ▸ valOk_some pid hp2
  · intro s b hs hb
    subst hb
    simp only [GetFederationId, hgo] at hs
    cases e with
    | some err => simp at hs
    | none =>
      cases hc : ci2.clusterId with
      | none => simp [hc] at hs
      | some cid =>
        rw [hc] at hc2
        cases hp : ci2.providerId with
        | none => simp [hc, hp] at hs
        | some pid =>
          by_cases hpc : cid = pid
          · simp [hc, hp, hpc] at hs
          · simp [hc, hp, hpc] at hs
            exact hs ▸ valOk_some cid hc2

theorem ids_nonEmpty_witness :
    cacheNonEmpty (ClusterId.mk true (some "a") none) = true ∧
    envNonEmpty envIdle = true ∧
    (GetId (ClusterId.mk true (some "a") none) envIdle).2.1 = IdRes.ok "a" ∧
    "a" ≠ "" :=
  ⟨by decide, by decide, by decide,
    (ids_nonEmpty (ClusterId.mk true (some "a") none) envIdle (by decide) (by decide)).1
      "a" (by decide)⟩

/-! ## C5: exactly one winner under concurrent first creation -/

/-- Each process's create outcome is: not attempted, success, or
`AlreadyExists` (the only failure the shared store produces here). -/
def createdOk {n : Nat} (s : MultiState n) : Prop :=
  ∀ j, s.created j = none ∨ s.created j = some none ∨
    s.created j = some (some CreateError.alreadyExists)

/-- Every process's cache has its watch started. -/
def cachesReady {n : Nat} (s : MultiState n) : Prop :=
  ∀ i, (s.caches i).storeReady = true

/-- Inductive invariant of the multi-process system: before a record
exists no cache is populated and no create has completed; once a record
with token `t` exists, every cached field is either unset or `t`, and
exactly one process — whose own cache holds `t` — has a successful
create. -/
def Inv {n : Nat} (s : MultiState n) : Prop :=
  createdOk s ∧ cachesReady s ∧
  match s.record with
  | none => ∀ i, s.caches i = readyEmptyCache ∧ s.created i = none
  | some t =>
    (∀ i, ((s.caches i).clusterId = none ∨ (s.caches i).clusterId = some t) ∧
      ((s.caches i).providerId = none ∨ (s.caches i).providerId = some t)) ∧
    ∃ w, s.created w = some none ∧ (s.caches w).clusterId = some t ∧
      ∀ j, s.created j = some none → j = w

theorem Inv_init (n : Nat) : Inv (initMulti n) := by
  unfold Inv initMulti createdOk cachesReady
  exact ⟨fun j => Or.inl rfl, fun i => rfl, fun i => ⟨rfl, rfl⟩⟩

theorem Inv_step {n : Nat} (s : MultiState n) (e : MEvent n) (h : Inv s) :
    Inv (mstep s e) := by
  obtain ⟨hok, hready, hrec⟩ := h
  cases e with
  | create i tok =>
    by_cases hpop : (s.caches i).clusterId.isSome = true
    · simp only [mstep]
      rw [if_pos hpop]
      exact ⟨hok, hready, hrec⟩
    · cases hr : s.record with
      | none =>
        rw [hr] at hrec
        have hemp : ∀ j, s.caches j = readyEmptyCache ∧ s.created j = none := hrec
        have hstep : mstep s (MEvent.create i tok) =
            { record := some tok
              caches := Function.update s.caches i (setIds (s.caches i) (newConfigMap tok))
              created := Function.update s.created i (some none) } := by
          simp only [mstep, hr]
          rw [if_neg hpop]
        rw [hstep]
        refine ⟨?_, ?_, ?_⟩
        · intro j
          by_cases hji : j = i
          · subst hji
            simp [Function.update_same]
          · simp [Function.update_noteq hji, (hemp j).2]
        · intro j
          by_cases hji : j = i
          · subst hji
            simp [Function.update_same, setIds_storeReady, hready j]
          · simp [Function.update_noteq hji, hready j]
        · refine ⟨?_, ⟨i, ?_, ?_, ?_⟩⟩
          · intro j
            by_cases hji : j = i
            · subst hji
              simp [Function.update_same, (hemp j).1, setIds_newConfigMap]
            · simp [Function.update_noteq hji, (hemp j).1, readyEmptyCache]
          · simp [Function.update_same]
          · simp [Function.update_same, (hemp i).1, setIds_newConfigMap]
          · intro j hj
            by_cases hji : j = i
            · exact hji
            · simp only [Function.update_noteq hji] at hj
              simp [(hemp j).2] at hj
      | some t =>
        rw [hr] at hrec
        obtain ⟨hfields, w, hw1, hw2, hw3⟩ := hrec
        have hwi : w ≠ i := by
          intro hwi
          rw [hwi] at hw2
          rw [hw2] at hpop
          simp at hpop
        have hstep : mstep s (MEvent.create i tok) =
            { record := some t
              caches := s.caches
              created := Function.update s.created i (some (some CreateError.alreadyExists)) } := by
          simp only [mstep]
          rw [if_neg hpop, hr]
        rw [hstep]
        refine ⟨?_, ?_, ?_⟩
        · intro j
          by_cases hji : j = i
          · subst hji
            simp [Function.update_same]
          · simp only [Function.update_noteq hji]
            exact hok j
        · intro j
          exact hready j
        · refine ⟨hfields, ⟨w, ?_, hw2, ?_⟩⟩
          · simp [Function.update_noteq hwi, hw1]
          · intro j hj
            by_cases hji : j = i
            · subst hji
              simp [Function.update_same] at hj
            · simp only [Function.update_noteq hji] at hj
              exact hw3 j hj
  | deliver i =>
    cases hr : s.record with
    | none =>
      have hstep : mstep s (MEvent.deliver i) = s := by
        simp only [mstep, hr]
      rw [hstep]
      exact ⟨hok, hready, hrec⟩
    | some t =>
      rw [hr] at hrec
      obtain ⟨hfields, w, hw1, hw2, hw3⟩ := hrec
      have hstep : mstep s (MEvent.deliver i) =
          { record := some t
            caches := Function.update s.caches i (setIds (s.caches i) (newConfigMap t))
            created := s.created } := by
        simp only [mstep]
        rw [hr]
      rw [hstep]
      refine ⟨hok, ?_, ?_⟩
      · intro j
        by_cases hji : j = i
        · subst hji
          simp [Function.update_same, setIds_storeReady, hready j]
        · simp [Function.update_noteq hji, hready j]
      · refine ⟨?_, ⟨w, hw1, ?_, hw3⟩⟩
        · intro j
          by_cases hji : j = i
          · subst hji
            simp [Function.update_same, setIds_newConfigMap]
          · simp only [Function.update_noteq hji]
            exact hfields j
        · by_cases hwi : w = i
          · subst hwi
            simp [Function.update_same, setIds_newConfigMap]
          · simp only [Function.update_noteq hwi]
            exact hw2

theorem Inv_runM {n : Nat} (evs : List (MEvent n)) (s : MultiState n)
    (h : Inv s) : Inv (runM evs s) := by
  induction evs generalizing s with
  | nil => exact h
  | cons e evs ih => exact ih (mstep s e) (Inv_step s e h)

theorem record_mono_runM {n : Nat} (evs : List (MEvent n)) (s : MultiState n)
    (t : String) (h : s.record = some t) : (runM evs s).record = some t := by
  induction evs generalizing s with
  | nil => exact h
  | cons e evs ih =>
    refine ih (mstep s e) ?_
    cases e with
    | create i tok =>
      simp only [mstep, h]
      by_cases hpop : (s.caches i).clusterId.isSome = true
      · rw [if_pos hpop]
        exact h
      · rw [if_neg hpop]
    | deliver i =>
      simp only [mstep, h]

theorem GetId_populated (ci : ClusterId) (env : Env) (t : String)
    (hr : ci.storeReady = true) (hc : ci.clusterId = some t)
    (hp : ci.providerId = none ∨ ci.providerId = some t) :
    (GetId ci env).2.1 = IdRes.ok t := by
  have hgo : getOrInitialize ci env = (ci, none, []) := by
    unfold getOrInitialize
    rw [hr, hc]
    simp
  rcases hp with hp | hp <;> simp [GetId, hgo, hc, hp]

theorem runM_append {n : Nat} (l1 l2 : List (MEvent n)) (s : MultiState n) :
    runM (l1 ++ l2) s = runM l2 (runM l1 s) := by
  simp [runM, List.foldl_append]

/-- C5: for any interleaving of N concurrent initializers against an
empty record store in which every process completed a create attempt,
exactly one process's create succeeded, every other process received
`AlreadyExists`, and there is a single token `t` such that any process's
subsequent `GetId` — after its watch delivered the record — returns
`t`: no process overwrote the winner's value or surfaces a spurious
identity. -/
theorem exactly_one_winner {n : Nat} (evs : List (MEvent n)) (hn : 0 < n)
    (hall : ∀ i, (runM evs (initMulti n)).created i ≠ none) :
    (∃ w, (runM evs (initMulti n)).created w = some none ∧
      ∀ j, (runM evs (initMulti n)).created j = some none → j = w) ∧
    (∀ j, (runM evs (initMulti n)).created j ≠ some none →
      (runM evs (initMulti n)).created j = some (some CreateError.alreadyExists)) ∧
    (∃ t : String, ∀ (i : Fin n) (env : Env),
      (GetId ((runM (evs ++ [MEvent.deliver i]) (initMulti n)).caches i) env).2.1 =
        IdRes.ok t) := by
  obtain ⟨hok, hready, hrec⟩ := Inv_runM evs (initMulti n) (Inv_init n)
  cases hr : (runM evs (initMulti n)).record with
  | none =>
    rw [hr] at hrec
    exact absurd (hrec ⟨0, hn⟩).2 (hall ⟨0, hn⟩)
  | some t =>
    rw [hr] at hrec
    obtain ⟨hfields, w, hw1, hw2, hw3⟩ := hrec
    refine ⟨⟨w, hw1, hw3⟩, ?_, ?_⟩
    · intro j hj
      rcases hok j with h0 | h0 | h0
      · exact absurd h0 (hall j)
      · exact absurd h0 hj
      · exact h0
    · refine ⟨t, ?_⟩
      intro i env
      rw [runM_append]
      have hdel : runM [MEvent.deliver i] (runM evs (initMulti n)) =
          { record := some t
            caches := Function.update (runM evs (initMulti n)).caches i
              (setIds ((runM evs (initMulti n)).caches i) (newConfigMap t))
            created := (runM evs (initMulti n)).created } := by
        show mstep (runM evs (initMulti n)) (MEvent.deliver i) = _
        simp only [mstep]
        rw [hr]
      rw [hdel]
      simp only [Function.update_same]
      rw [setIds_newConfigMap]
      refine GetId_populated _ env t ?_ rfl (Or.inr rfl)
      exact hready i

/-- A two-process interleaving in which both processes attempt the
create step before either observes the other's record. -/
def evsW : List (MEvent 2) := [MEvent.create 0 "aaaa", MEvent.create 1 "bbbb"]

theorem exactly_one_winner_witness :
    (0 < 2) ∧
    (∀ i : Fin 2, (runM evsW (initMulti 2)).created i ≠ none) ∧
    (∃ t : String, ∀ (i : Fin 2) (env : Env),
      (GetId ((runM (evsW ++ [MEvent.deliver i]) (initMulti 2)).caches i) env).2.1 =
        IdRes.ok t) :=
  ⟨by decide, by decide, (exactly_one_winner evsW (by decide) (by decide)).2.2⟩

end GCEClusterId
